import Mathlib

/-!
Shallow embedding of the Diagnyx API management service (src/main.py).

The service is a FastAPI application whose handlers fabricate responses.
Every effectful input a handler reads is passed explicitly:
* each `str(uuid.uuid4())` call receives a natural number `r` (the random
  128-bit draw) and renders it with `uuidString`;
* each `time.strftime("%Y-%m-%d %H:%M:%S")` call receives a `String`;
* each `int(time.time())` call receives an `Int`;
* the database connectivity probe outcome is a `Bool` (for `/health`) or an
  `Option String` holding the exception text (for `/service-status`).
Python floats (`uptime`, `response_time`) are modelled as exact rationals;
no property stated here depends on float rounding.
Handlers that can `raise HTTPException` return `Except HTTPError _`;
handlers with no raise path are total, and a `ROUTE_`/`GET_` wrapper
returning `Except` mirrors the framework always answering with a success
response for them.  Pydantic body validation runs before a handler; the
marketing routes are therefore modelled as validation followed by the
handler.
-/

namespace ApiManagement

/-- Lowercase hex digit character for a value below 16, as Python's
`uuid` string formatting produces. -/
def hexChar (n : Nat) : Char :=
  if n < 10 then Char.ofNat (48 + n) else Char.ofNat (87 + n)

/-- Fixed-width big-endian hex rendering of a natural number. -/
def hexChars : Nat → Nat → List Char
  | 0, _ => []
  | d + 1, n => hexChars d (n / 16) ++ [hexChar (n % 16)]

/-- `str(uuid.uuid4())`: the 32 lowercase hex digits of a 128-bit value,
hyphenated in 8-4-4-4-12 groups (36 characters in total).  `r` is the
random draw backing the UUID. -/
def uuidString (r : Nat) : String :=
  let h := hexChars 32 (r % 2 ^ 128)
  ⟨h.take 8 ++ '-' :: (h.drop 8).take 4 ++ '-' :: (h.drop 12).take 4
    ++ '-' :: (h.drop 16).take 4 ++ '-' :: h.drop 20⟩

/-- `ApiRegistrationRequest` (src/main.py:24). -/
structure ApiRegistrationRequest where
  name : String
  description : String
  base_url : String
  version : String
  owner_id : String
  documentation_url : Option String := none
  tags : List String := []
  deriving DecidableEq

/-- `ApiResponse` (src/main.py:33). -/
structure ApiResponse where
  api_id : String
  name : String
  description : String
  base_url : String
  version : String
  owner_id : String
  documentation_url : Option String := none
  tags : List String := []
  created_at : String
  updated_at : String
  deriving DecidableEq

/-- The `details` mapping of a health-check record (src/main.py:278). -/
structure HealthCheckDetails where
  status_code : Nat
  response_size : Nat
  endpoint : String
  deriving DecidableEq

/-- `HealthCheckResult` (src/main.py:45). -/
structure HealthCheckResult where
  check_id : String
  api_id : String
  status : String
  response_time : ℚ
  timestamp : Int
  details : HealthCheckDetails
  deriving DecidableEq

/-- `HealthResponse` (src/main.py:69). -/
structure HealthResponse where
  status : String
  version : String
  uptime : ℚ
  service : String
  database : String
  deriving DecidableEq

/-- `ServiceStatusResponse` (src/main.py:76). -/
structure ServiceStatusResponse where
  service : String
  timestamp : String
  database : String
  status : String
  message : String
  deriving DecidableEq

/-- The payload of a `raise HTTPException(status_code=..., detail=...)`. -/
structure HTTPError where
  status_code : Nat
  detail : String
  deriving DecidableEq

/-- `ContactSubmission` (src/main.py:53); the email is kept as the raw
string, validation is applied by the route wrapper. -/
structure ContactSubmission where
  email : String
  name : String
  subject : String
  message : String
  company : Option String := none
  deriving DecidableEq

/-- `NewsletterSubscription` (src/main.py:60). -/
structure NewsletterSubscription where
  email : String
  deriving DecidableEq

/-- `TrialWaitlistEntry` (src/main.py:63). -/
structure TrialWaitlistEntry where
  email : String
  full_name : String
  company : Option String := none
  selected_plan : Option String := none
  deriving DecidableEq

/-- A pydantic request-body validation failure (surfaced by FastAPI as a
client error, never a 201). -/
structure ValidationError where
  loc : String
  msg : String
  deriving DecidableEq

/-- Modelled from the spec: the well-formedness check that pydantic's
`EmailStr` applies to the `email` field of the marketing request bodies is
performed by a third-party library and is not part of this repository's
source.  Following the spec's "required email format" / "malformed email"
wording it is modelled as: exactly one `@`, a nonempty local part, a
nonempty domain that contains a dot but does not start or end with one,
and no space anywhere. -/
def isValidEmail (s : String) : Bool :=
  let cs := s.data
  let lp := cs.takeWhile (fun c => !(c == '@'))
  match cs.dropWhile (fun c => !(c == '@')) with
  | '@' :: dom =>
      !lp.isEmpty && !dom.isEmpty && dom.all (fun c => !(c == '@')) &&
      dom.contains '.' && !(dom.head? == some '.') &&
      !(dom.getLast? == some '.') && cs.all (fun c => !(c == ' '))
  | _ => false

/-- `GET /health` handler (src/main.py:109).  `connect_ok` is the outcome
of the `psycopg2.connect` probe; the `except` clause only flips the
reported `database` field, so the handler is total — it never raises. -/
def health_check (connect_ok : Bool) (uptime : ℚ) : HealthResponse :=
  { status := "UP"
    version := "1.0.0"
    uptime := uptime
    service := "api-management-service"
    database := if connect_ok then "UP" else "DOWN" }

/-- The framework route for `GET /health`: the handler has no raise path,
so the route always answers with a success response. -/
def GET_health (connect_ok : Bool) (uptime : ℚ) : Except HTTPError HealthResponse :=
  .ok (health_check connect_ok uptime)

/-- `GET /service-status` handler (src/main.py:134).  `probe_error` is
`none` when the connect + `SELECT 1` probe succeeds, and `some e` with the
exception text `e` when it fails; the `except` clause only rewrites the
reported fields, so the handler is total. -/
def service_status (probe_error : Option String) (now : String) : ServiceStatusResponse :=
  match probe_error with
  | none =>
      { service := "api-management-service"
        timestamp := now
        database := "UP"
        status := "SUCCESS"
        message := "API Management Service is operational with database connectivity" }
  | some e =>
      { service := "api-management-service"
        timestamp := now
        database := "DOWN"
        status := "FAILURE"
        message := "API Management Service is degraded - database connectivity issue: " ++ e }

/-- The framework route for `GET /service-status`: no raise path. -/
def GET_service_status (probe_error : Option String) (now : String) :
    Except HTTPError ServiceStatusResponse :=
  .ok (service_status probe_error now)

/-- `POST /api/v1/apis` handler `register_api` (src/main.py:167): one
`uuid4` draw `r`, one `strftime` read `current_time` used for both
timestamp fields, request fields echoed back. -/
def register_api (r : Nat) (current_time : String) (request : ApiRegistrationRequest) :
    ApiResponse :=
  { api_id := uuidString r
    name := request.name
    description := request.description
    base_url := request.base_url
    version := request.version
    owner_id := request.owner_id
    documentation_url := request.documentation_url
    tags := request.tags
    created_at := current_time
    updated_at := current_time }

/-- `GET /api/v1/apis/{api_id}` handler (src/main.py:188): 404 on an empty
identifier, otherwise a fabricated descriptor echoing the identifier.
`now1`/`now2` are the two separate `strftime` reads. -/
def get_api (api_id : String) (now1 now2 : String) : Except HTTPError ApiResponse :=
  if api_id = "" then
    .error { status_code := 404, detail := "API not found" }
  else
    .ok { api_id := api_id
          name := "Sample API"
          description := "This is a sample API"
          base_url := "https://api.example.com"
          version := "1.0.0"
          owner_id := "user-123"
          documentation_url := some "https://docs.example.com"
          tags := ["sample", "example"]
          created_at := now1
          updated_at := now2 }

/-- The body returned by `GET /api/v1/apis` (src/main.py:230). -/
structure ApiListResponse where
  data : List ApiResponse
  total : Nat
  deriving DecidableEq

/-- `GET /api/v1/apis` handler `list_apis` (src/main.py:209): three
fabricated descriptors for `i in range(1, 4)`; `rs i` is the `uuid4` draw
and `nowf (2*i)` / `nowf (2*i+1)` the two `strftime` reads of item `i`. -/
def list_apis (rs : Nat → Nat) (nowf : Nat → String) : ApiListResponse :=
  let apis := (List.range' 1 3).map (fun i =>
    { api_id := uuidString (rs i)
      name := "Sample API " ++ toString i
      description := "This is a sample API " ++ toString i
      base_url := "https://api" ++ toString i ++ ".example.com"
      version := "1.0.0"
      owner_id := "user-123"
      documentation_url := some ("https://docs" ++ toString i ++ ".example.com")
      tags := ["sample", "example"]
      created_at := nowf (2 * i)
      updated_at := nowf (2 * i + 1)
      : ApiResponse })
  { data := apis, total := apis.length }

/-- `PUT /api/v1/apis/{api_id}` handler `update_api` (src/main.py:235):
404 on an empty identifier, otherwise the request fields echoed with the
path identifier; `now1`/`now2` are the two separate `strftime` reads. -/
def update_api (api_id : String) (request : ApiRegistrationRequest) (now1 now2 : String) :
    Except HTTPError ApiResponse :=
  if api_id = "" then
    .error { status_code := 404, detail := "API not found" }
  else
    .ok { api_id := api_id
          name := request.name
          description := request.description
          base_url := request.base_url
          version := request.version
          owner_id := request.owner_id
          documentation_url := request.documentation_url
          tags := request.tags
          created_at := now1
          updated_at := now2 }

/-- The body returned by `DELETE /api/v1/apis/{api_id}` (src/main.py:264). -/
structure DeleteResponse where
  message : String
  deriving DecidableEq

/-- `DELETE /api/v1/apis/{api_id}` handler `delete_api` (src/main.py:256). -/
def delete_api (api_id : String) : Except HTTPError DeleteResponse :=
  if api_id = "" then
    .error { status_code := 404, detail := "API not found" }
  else
    .ok { message := "API " ++ api_id ++ " deleted successfully" }

/-- The body returned by `GET /api/v1/apis/{api_id}/health-checks`
(src/main.py:287). -/
structure HealthChecksResponse where
  data : List HealthCheckResult
  total : Nat
  deriving DecidableEq

/-- `GET /api/v1/apis/{api_id}/health-checks` handler (src/main.py:266):
five fabricated records for `i in range(5)`; `rs i` is item `i`'s `uuid4`
draw and `tf i` its `int(time.time())` read. -/
def get_api_health_checks (api_id : String) (rs : Nat → Nat) (tf : Nat → Int) :
    HealthChecksResponse :=
  let health_checks := (List.range 5).map (fun i =>
    { check_id := uuidString (rs i)
      api_id := api_id
      status := if i % 3 ≠ 0 then "healthy" else "degraded"
      response_time := (1 / 2 : ℚ) + i * (1 / 10)
      timestamp := tf i - i * 3600
      details := { status_code := if i % 3 ≠ 0 then 200 else 500
                   response_size := 1024
                   endpoint := "/api/v1/resource" }
      : HealthCheckResult })
  { data := health_checks, total := health_checks.length }

/-- The framework route for `GET /api/v1/apis/{api_id}/health-checks`:
the handler has no raise path, so the route always answers with a success
response, whatever the identifier. -/
def ROUTE_get_api_health_checks (api_id : String) (rs : Nat → Nat) (tf : Nat → Int) :
    Except HTTPError HealthChecksResponse :=
  .ok (get_api_health_checks api_id rs tf)

/-- The body returned by `POST /api/v1/contact-submissions` (src/main.py:297). -/
structure SubmissionResponse where
  message : String
  submission_id : String
  deriving DecidableEq

/-- The body returned by `POST /api/v1/newsletter-subscriptions` (src/main.py:307). -/
structure SubscriptionResponse where
  message : String
  subscription_id : String
  deriving DecidableEq

/-- The body returned by `POST /api/v1/trial-waitlist` (src/main.py:317). -/
structure WaitlistResponse where
  message : String
  waitlist_id : String
  deriving DecidableEq

/-- `submit_contact_form` handler body (src/main.py:292). -/
def submit_contact_form (r : Nat) (_submission : ContactSubmission) : SubmissionResponse :=
  { message := "Contact form submitted successfully"
    submission_id := uuidString r }

/-- `subscribe_newsletter` handler body (src/main.py:302). -/
def subscribe_newsletter (r : Nat) (_subscription : NewsletterSubscription) :
    SubscriptionResponse :=
  { message := "Subscribed to newsletter successfully"
    subscription_id := uuidString r }

/-- `join_trial_waitlist` handler body (src/main.py:312). -/
def join_trial_waitlist (r : Nat) (_entry : TrialWaitlistEntry) : WaitlistResponse :=
  { message := "Added to trial waitlist successfully"
    waitlist_id := uuidString r }

/-- `POST /api/v1/contact-submissions` route: pydantic email validation,
then the handler with `status_code=201`. -/
def POST_contact_submissions (r : Nat) (body : ContactSubmission) :
    Except ValidationError (Nat × SubmissionResponse) :=
  if isValidEmail body.email then
    .ok (201, submit_contact_form r body)
  else
    .error { loc := "email", msg := "value is not a valid email address" }

/-- `POST /api/v1/newsletter-subscriptions` route: pydantic email
validation, then the handler with `status_code=201`. -/
def POST_newsletter_subscriptions (r : Nat) (body : NewsletterSubscription) :
    Except ValidationError (Nat × SubscriptionResponse) :=
  if isValidEmail body.email then
    .ok (201, subscribe_newsletter r body)
  else
    .error { loc := "email", msg := "value is not a valid email address" }

/-- `POST /api/v1/trial-waitlist` route: pydantic email validation, then
the handler with `status_code=201`. -/
def POST_trial_waitlist (r : Nat) (body : TrialWaitlistEntry) :
    Except ValidationError (Nat × WaitlistResponse) :=
  if isValidEmail body.email then
    .ok (201, join_trial_waitlist r body)
  else
    .error { loc := "email", msg := "value is not a valid email address" }

theorem hexChars_length (d : Nat) : ∀ n, (hexChars d n).length = d := by
  induction d with
  | zero => intro n; rfl
  | succ d ih => intro n; simp [hexChars, ih]

theorem uuidString_length (r : Nat) : (uuidString r).length = 36 := by
  simp [uuidString, String.length, List.length_take, List.length_drop, hexChars_length]

theorem uuidString_ne_empty (r : Nat) : uuidString r ≠ "" := by
  intro e
  have h := uuidString_length r
  rw [e] at h
  simp [String.length] at h

theorem isValidEmail_not_an_email : isValidEmail "not-an-email" = false := rfl

theorem isValidEmail_sample : isValidEmail "a@b.co" = true := rfl

/-- C1: for every valid registration payload, `POST /api/v1/apis` returns a
descriptor whose name, description, base_url, version, owner_id,
documentation_url and tags equal the corresponding input fields, whose
`api_id` is a newly generated non-empty identifier, and whose `created_at`
and `updated_at` strings are equal. -/
theorem C1_register_api_echo (r : Nat) (now : String) (request : ApiRegistrationRequest) :
    (register_api r now request).name = request.name ∧
    (register_api r now request).description = request.description ∧
    (register_api r now request).base_url = request.base_url ∧
    (register_api r now request).version = request.version ∧
    (register_api r now request).owner_id = request.owner_id ∧
    (register_api r now request).documentation_url = request.documentation_url ∧
    (register_api r now request).tags = request.tags ∧
    (register_api r now request).api_id = uuidString r ∧
    (register_api r now request).api_id ≠ "" ∧
    (register_api r now request).created_at = (register_api r now request).updated_at :=
  ⟨rfl, rfl, rfl, rfl, rfl, rfl, rfl, rfl, uuidString_ne_empty r, rfl⟩

/-- C2: `GET /api/v1/apis/{id}/health-checks` always returns exactly 5
records with `total = 5`; the records at indices 0 and 3 have status
"degraded" with detail status_code 500, the records at indices 1, 2 and 4
have status "healthy" with detail status_code 200. -/
theorem C2_health_checks_degraded_pattern (api_id : String) (rs : Nat → Nat) (tf : Nat → Int) :
    (get_api_health_checks api_id rs tf).total = 5 ∧
    (get_api_health_checks api_id rs tf).data.length = 5 ∧
    (get_api_health_checks api_id rs tf).data.map (fun x => x.status)
      = ["degraded", "healthy", "healthy", "degraded", "healthy"] ∧
    (get_api_health_checks api_id rs tf).data.map (fun x => x.details.status_code)
      = [500, 200, 200, 500, 200] :=
  ⟨rfl, rfl, rfl, rfl⟩

/-- C3: for every non-empty path identifier, `GET /api/v1/apis/{id}` and
`PUT /api/v1/apis/{id}` succeed and echo exactly that identifier in the
response's `api_id` field. -/
theorem C3_get_put_echo_id (api_id : String) (n1 n2 m1 m2 : String)
    (request : ApiRegistrationRequest) (h : api_id ≠ "") :
    (∃ resp, get_api api_id n1 n2 = .ok resp ∧ resp.api_id = api_id) ∧
    (∃ resp, update_api api_id request m1 m2 = .ok resp ∧ resp.api_id = api_id) := by
  simp only [get_api, update_api, if_neg h]
  exact ⟨⟨_, rfl, rfl⟩, ⟨_, rfl, rfl⟩⟩

/-- Witness for C3 at the concrete identifier "abc". -/
theorem C3_witness :
    ("abc" : String) ≠ "" ∧
    (∃ resp, get_api "abc" "t1" "t2" = .ok resp ∧ resp.api_id = "abc") ∧
    (∃ resp, update_api "abc" ⟨"n", "d", "u", "v", "o", none, []⟩ "t3" "t4" = .ok resp ∧
      resp.api_id = "abc") :=
  ⟨by decide,
   (C3_get_put_echo_id "abc" "t1" "t2" "t3" "t4" ⟨"n", "d", "u", "v", "o", none, []⟩
     (by decide)).1,
   (C3_get_put_echo_id "abc" "t1" "t2" "t3" "t4" ⟨"n", "d", "u", "v", "o", none, []⟩
     (by decide)).2⟩

/-- C4: for the empty path identifier, `GET`, `PUT` and `DELETE` on
`/api/v1/apis/{id}` each fail with a 404 error carrying the message
"API not found" and return no descriptor. -/
theorem C4_empty_id_not_found (n1 n2 m1 m2 : String) (request : ApiRegistrationRequest) :
    get_api "" n1 n2 = .error { status_code := 404, detail := "API not found" } ∧
    update_api "" request m1 m2 = .error { status_code := 404, detail := "API not found" } ∧
    delete_api "" = .error { status_code := 404, detail := "API not found" } :=
  ⟨rfl, rfl, rfl⟩

/-- C5: on each of the three marketing routes, a body with a malformed
email (such as "not-an-email") yields a validation error and never a 201,
while a body with a well-formed email yields HTTP 201 together with a
generated non-empty identifier field. -/
theorem C5_marketing_validation (r1 r2 r3 : Nat)
    (c : ContactSubmission) (n : NewsletterSubscription) (w : TrialWaitlistEntry) :
    isValidEmail "not-an-email" = false ∧
    (isValidEmail c.email = false →
      POST_contact_submissions r1 c
        = .error { loc := "email", msg := "value is not a valid email address" }) ∧
    (isValidEmail c.email = true →
      ∃ b, POST_contact_submissions r1 c = .ok (201, b) ∧ b.submission_id ≠ "") ∧
    (isValidEmail n.email = false →
      POST_newsletter_subscriptions r2 n
        = .error { loc := "email", msg := "value is not a valid email address" }) ∧
    (isValidEmail n.email = true →
      ∃ b, POST_newsletter_subscriptions r2 n = .ok (201, b) ∧ b.subscription_id ≠ "") ∧
    (isValidEmail w.email = false →
      POST_trial_waitlist r3 w
        = .error { loc := "email", msg := "value is not a valid email address" }) ∧
    (isValidEmail w.email = true →
      ∃ b, POST_trial_waitlist r3 w = .ok (201, b) ∧ b.waitlist_id ≠ "") := by
  refine ⟨isValidEmail_not_an_email, fun h => ?_, fun h => ?_, fun h => ?_, fun h => ?_,
    fun h => ?_, fun h => ?_⟩
  · simp [POST_contact_submissions, h]
  · exact ⟨submit_contact_form r1 c, by simp [POST_contact_submissions, h],
      uuidString_ne_empty r1⟩
  · simp [POST_newsletter_subscriptions, h]
  · exact ⟨subscribe_newsletter r2 n, by simp [POST_newsletter_subscriptions, h],
      uuidString_ne_empty r2⟩
  · simp [POST_trial_waitlist, h]
  · exact ⟨join_trial_waitlist r3 w, by simp [POST_trial_waitlist, h],
      uuidString_ne_empty r3⟩

/-- Witness for C5 at concrete malformed and well-formed payloads. -/
theorem C5_witness :
    (POST_contact_submissions 0 ⟨"not-an-email", "n", "s", "m", none⟩
      = .error { loc := "email", msg := "value is not a valid email address" }) ∧
    (∃ b, POST_contact_submissions 1 ⟨"a@b.co", "n", "s", "m", none⟩ = .ok (201, b) ∧
      b.submission_id ≠ "") ∧
    (POST_newsletter_subscriptions 2 ⟨"not-an-email"⟩
      = .error { loc := "email", msg := "value is not a valid email address" }) ∧
    (∃ b, POST_newsletter_subscriptions 3 ⟨"a@b.co"⟩ = .ok (201, b) ∧
      b.subscription_id ≠ "") ∧
    (POST_trial_waitlist 4 ⟨"not-an-email", "f", none, none⟩
      = .error { loc := "email", msg := "value is not a valid email address" }) ∧
    (∃ b, POST_trial_waitlist 5 ⟨"a@b.co", "f", none, none⟩ = .ok (201, b) ∧
      b.waitlist_id ≠ "") :=
  ⟨(C5_marketing_validation 0 1 4 ⟨"not-an-email", "n", "s", "m", none⟩ ⟨"a@b.co"⟩
      ⟨"a@b.co", "f", none, none⟩).2.1 isValidEmail_not_an_email,
   (C5_marketing_validation 1 2 4 ⟨"a@b.co", "n", "s", "m", none⟩ ⟨"not-an-email"⟩
      ⟨"a@b.co", "f", none, none⟩).2.2.1 isValidEmail_sample,
   (C5_marketing_validation 1 2 4 ⟨"a@b.co", "n", "s", "m", none⟩ ⟨"not-an-email"⟩
      ⟨"a@b.co", "f", none, none⟩).2.2.2.1 isValidEmail_not_an_email,
   (C5_marketing_validation 1 3 4 ⟨"a@b.co", "n", "s", "m", none⟩ ⟨"a@b.co"⟩
      ⟨"not-an-email", "f", none, none⟩).2.2.2.2.1 isValidEmail_sample,
   (C5_marketing_validation 1 3 4 ⟨"a@b.co", "n", "s", "m", none⟩ ⟨"a@b.co"⟩
      ⟨"not-an-email", "f", none, none⟩).2.2.2.2.2.1 isValidEmail_not_an_email,
   (C5_marketing_validation 1 3 5 ⟨"a@b.co", "n", "s", "m", none⟩ ⟨"a@b.co"⟩
      ⟨"a@b.co", "f", none, none⟩).2.2.2.2.2.2 isValidEmail_sample⟩

/-- C6: `GET /health` never fails the request — for either outcome of the
database connectivity probe the route answers with a success response
whose `status` field is "UP", and a probe failure only changes the
`database` field from "UP" to "DOWN", leaving every other field as in the
success outcome. -/
theorem C6_health_always_up (connect_ok : Bool) (uptime : ℚ) :
    (∃ resp, GET_health connect_ok uptime = .ok resp ∧ resp.status = "UP" ∧
      resp.database = (if connect_ok then "UP" else "DOWN")) ∧
    health_check false uptime = { health_check true uptime with database := "DOWN" } :=
  ⟨⟨health_check connect_ok uptime, rfl, rfl, rfl⟩, rfl⟩

/-- C7: `GET /service-status` answers with a success response in both
probe outcomes: a failed probe with exception text `e` yields status
"FAILURE", database "DOWN" and a diagnostic message naming the
connectivity issue; a successful probe yields status "SUCCESS" and
database "UP". -/
theorem C7_service_status_outcomes (now : String) (e : String) :
    (∃ resp, GET_service_status (some e) now = .ok resp ∧
      resp.status = "FAILURE" ∧ resp.database = "DOWN" ∧
      resp.message
        = "API Management Service is degraded - database connectivity issue: " ++ e) ∧
    (∃ resp, GET_service_status none now = .ok resp ∧
      resp.status = "SUCCESS" ∧ resp.database = "UP") :=
  ⟨⟨service_status (some e) now, rfl, rfl, rfl, rfl⟩,
   ⟨service_status none now, rfl, rfl, rfl⟩⟩

/-- C8: `GET /api/v1/apis` always succeeds and returns exactly 3
descriptors in `data` with `total = 3`, `total` being the length of the
returned list. -/
theorem C8_list_apis_three (rs : Nat → Nat) (nowf : Nat → String) :
    (list_apis rs nowf).data.length = 3 ∧
    (list_apis rs nowf).total = 3 ∧
    (list_apis rs nowf).total = (list_apis rs nowf).data.length :=
  ⟨rfl, rfl, rfl⟩

/-- C9: for every path identifier, the empty one included, the
health-checks route answers with a success response (it has no not-found
path), and each of the 5 returned records carries exactly the path
identifier in its `api_id` field. -/
theorem C9_health_checks_echo_id (api_id : String) (rs : Nat → Nat) (tf : Nat → Int) :
    ROUTE_get_api_health_checks api_id rs tf = .ok (get_api_health_checks api_id rs tf) ∧
    (get_api_health_checks api_id rs tf).data.map (fun x => x.api_id)
      = [api_id, api_id, api_id, api_id, api_id] :=
  ⟨rfl, rfl⟩

/-- C10: when every clock read during the request returns the base time
`t`, the record at index `i` of the health-checks response carries
timestamp `t - i*3600`: the 5 timestamps decrease strictly by exactly 3600
seconds per step, newest first. -/
theorem C10_health_checks_timestamps (api_id : String) (rs : Nat → Nat) (tf : Nat → Int)
    (t : Int) (h : ∀ j, j < 5 → tf j = t) :
    (get_api_health_checks api_id rs tf).data.map (fun x => x.timestamp)
      = [t, t - 3600, t - 7200, t - 10800, t - 14400] := by
  have h0 := h 0 (by decide)
  have h1 := h 1 (by decide)
  have h2 := h 2 (by decide)
  have h3 := h 3 (by decide)
  have h4 := h 4 (by decide)
  have hr : List.range 5 = [0, 1, 2, 3, 4] := rfl
  simp [get_api_health_checks, hr, h0, h1, h2, h3, h4]

/-- Witness for C10 at a concrete base time. -/
theorem C10_witness :
    (get_api_health_checks "api-1" (fun _ => 0) (fun _ => (100000 : Int))).data.map
      (fun x => x.timestamp) = [100000, 96400, 92800, 89200, 85600] := by
  have h := C10_health_checks_timestamps "api-1" (fun _ => 0) (fun _ => (100000 : Int))
    100000 (fun _ _ => rfl)
  norm_num at h
  exact h

end ApiManagement
